import Mathlib

/-!
# Cities controller: pagination, search and record lifecycle

A shallow embedding of `controllers/cities.controller.go`.  The handlers are
functions from a database handle (the state of the relational store, the number
of statements issued so far and the fault oracle of the store) and the request
to a response and the database handle after the request.

The relational store itself is an external collaborator.  Its query interface
is embedded with the meaning the statements built by the handlers have in SQL:
joins, `DISTINCT`, `ORDER BY`, `OFFSET`/`LIMIT`, `count(*)`, `ILIKE` patterns and
first-match lookups ordered by primary key.
-/

namespace Cities

/-! ## Data model -/

/-- Modelled from the spec: the record type `models.CityTranslation` (its
declaration is not part of the sources at hand): identifier, identifier of the
owning city, language code and display name. -/
structure CityTranslation where
  ID : Nat
  CityID : Nat
  Language : String
  Name : String
deriving DecidableEq, Repr

/-- Modelled from the spec: the columns of a row of the `cities` table, as they
are named by the projection of `GetCities`: identifier, display key, update
timestamp and soft-delete marker. -/
structure CityRow where
  ID : Nat
  Hex : String
  UpdatedAt : Nat
  DeletedAt : Option Nat
deriving DecidableEq, Repr

/-- Modelled from the spec: the record type `models.City`: the columns of the
row together with the eagerly attached translations. -/
structure City where
  row : CityRow
  Translations : List CityTranslation
deriving DecidableEq, Repr

/-- The contents of the store: the rows of the two tables that the query
interface can see, in the order in which the store enumerates them.  A row
that has been deleted is not part of the state: no statement of the controller
can observe it again. -/
structure Store where
  cities : List CityRow
  translations : List CityTranslation
deriving DecidableEq, Repr

/-! ## Query string parameters -/

/-- The value of a decimal digit, `ch -= '0'; if ch > 9` in `strconv`. -/
def digitVal (c : Char) : Option Nat :=
  if 48 ≤ c.toNat ∧ c.toNat ≤ 57 then some (c.toNat - 48) else none

/-- The digit loop of `strconv.Atoi`: `n = n*10 + int(ch)`, a syntax error at
the first character that is not a digit. -/
def parseDigits : List Char → Nat → Option Nat
  | [], acc => some acc
  | c :: cs, acc =>
    match digitVal c with
    | none => none
    | some d => parseDigits cs (acc * 10 + d)

/-- The digits after the optional sign: at least one is required. -/
def parseMagnitude (ds : List Char) : Option Nat :=
  if ds.isEmpty then none else parseDigits ds 0

/-- The function `strconv.Atoi` for a 64-bit `int`: an optional sign followed by
one or more decimal digits, `none` (the error result) for every other string
and for a value outside `[-2^63, 2^63 - 1]`. -/
def Atoi (s : String) : Option Int :=
  match s.data with
  | [] => none
  | c :: cs =>
    if c = '-' then
      (parseMagnitude cs).bind fun n =>
        if n ≤ 9223372036854775808 then some (-(n : Int)) else none
    else if c = '+' then
      (parseMagnitude cs).bind fun n =>
        if n < 9223372036854775808 then some (n : Int) else none
    else
      (parseMagnitude (c :: cs)).bind fun n =>
        if n < 9223372036854775808 then some (n : Int) else none

/-- The function `strconv.Itoa`. -/
def Itoa (n : Int) : String := toString n

/-- The accessor `c.Query(key, defaultValue)`: the raw value of the key, the
default when the key is absent or its value is empty. -/
def Query (raw : Option String) (defaultValue : String) : String :=
  match raw with
  | none => defaultValue
  | some v => if v = "" then defaultValue else v

/-- Lines 42-45 and 104-107: `limitNumber`. -/
def limitNumber (limit : String) : Int :=
  match Atoi limit with
  | none => 10
  | some n => if n < 1 then 10 else n

/-- Lines 47-50 and 109-112: `skipNumber`. -/
def skipNumber (skip : String) : Int :=
  match Atoi skip with
  | none => 0
  | some n => if n < 0 then 0 else n

/-! ## The query interface of the store -/

/-- The elements of a `LIKE` pattern: `%`, `_` and a character that stands for
itself. -/
inductive LikeTok where
  | anySeq
  | anyOne
  | lit (c : Char)
deriving DecidableEq, Repr

/-- Reading of a `LIKE` pattern: `%` matches any sequence of characters, `_`
any single character, and the escape character `\` makes the character after
it stand for itself.  (The store rejects a pattern that ends in a lone escape
character; here the character reads as itself.  The patterns built by the
controller end in `%` and are never of that kind, see `endsInEscape_wrap`.) -/
def likeTokens : List Char → List LikeTok
  | [] => []
  | c :: cs =>
    if c = '%' then LikeTok.anySeq :: likeTokens cs
    else if c = '_' then LikeTok.anyOne :: likeTokens cs
    else if c = '\\' then
      match cs with
      | [] => [LikeTok.lit c]
      | d :: ds => LikeTok.lit d :: likeTokens ds
    else LikeTok.lit c :: likeTokens cs

/-- The pattern ends in a lone escape character. -/
def endsInEscape : List Char → Bool
  | [] => false
  | c :: cs =>
    if c = '\\' then
      match cs with
      | [] => true
      | _ :: ds => endsInEscape ds
    else endsInEscape cs

/-- Matching of a whole text against a pattern, characters compared without
regard to case (through `Char.toLower`). -/
def likeMatch : List LikeTok → List Char → Bool
  | [], t => t.isEmpty
  | LikeTok.anySeq :: p, t => t.tails.any fun u => likeMatch p u
  | LikeTok.anyOne :: _, [] => false
  | LikeTok.anyOne :: p, _ :: t => likeMatch p t
  | LikeTok.lit _ :: _, [] => false
  | LikeTok.lit c :: p, x :: t => x.toLower == c.toLower && likeMatch p t

/-- The operator `text ILIKE pattern`. -/
def ILIKE (text pattern : String) : Bool :=
  likeMatch (likeTokens pattern.data) text.data

/-- The text contains the name as a substring, ignoring case. -/
def containsIgnoreCase (text name : String) : Prop :=
  name.data.map Char.toLower <:+: text.data.map Char.toLower

instance (text name : String) : Decidable (containsIgnoreCase text name) := by
  unfold containsIgnoreCase; infer_instance

/-- The name has none of the characters that a `LIKE` pattern reads specially. -/
def plainName (name : String) : Prop :=
  ∀ c ∈ name.data, c ≠ '%' ∧ c ≠ '_' ∧ c ≠ '\\'

instance (name : String) : Decidable (plainName name) := by
  unfold plainName; infer_instance

/-- The clause `ORDER BY id LIMIT 1` that `First` adds: the row with the least
identifier, `none` when there is no row. -/
def firstBy {α : Type} (key : α → Nat) : List α → Option α
  | [] => none
  | a :: as =>
    match firstBy key as with
    | none => some a
    | some b => if key a ≤ key b then some a else some b

/-- The clause `OFFSET n`; a call without the clause is `none`. -/
def applyOffset {α : Type} (offset : Option Int) (rows : List α) : List α :=
  match offset with
  | none => rows
  | some n => rows.drop n.toNat

/-- The clause `LIMIT n`; a call without the clause is `none`, and a negative
number cancels the clause. -/
def applyLimit {α : Type} (limit : Option Int) (rows : List α) : List α :=
  match limit with
  | none => rows
  | some n => if n < 0 then rows else rows.take n.toNat

/-- The rows of `cities JOIN city_translations ON cities.id =
city_translations.city_id`. -/
def joinRows (s : Store) : List (CityRow × CityTranslation) :=
  s.cities.flatMap fun c =>
    (s.translations.filter fun t => t.CityID = c.ID).map fun t => (c, t)

/-- The eager load `Preload("Translations", conds)`: the translations of the
city that satisfy the condition. -/
def preload (s : Store) (cond : CityTranslation → Bool) (c : CityRow) : City :=
  { row := c, Translations := s.translations.filter fun t => t.CityID = c.ID && cond t }

/-- The list query of `GetCities` (lines 63-69): join, projection on the columns
of the city with `DISTINCT`, `ORDER BY cities.id`, offset and limit, and the
eager load of all translations of each city. -/
def listQuery (s : Store) (offset limit : Option Int) : List City :=
  (applyLimit limit (applyOffset offset
    ((((joinRows s).map Prod.fst).dedup).insertionSort fun a b => a.ID ≤ b.ID))).map
    (preload s fun _ => true)

/-- The condition shared by the two queries of the search (lines 152 and 166):
`city_translations.name ILIKE ? AND city_translations.language = ?`. -/
def searchCond (name lang : String) (p : CityRow × CityTranslation) : Bool :=
  ILIKE p.2.Name ("%" ++ name ++ "%") && p.2.Language = lang

/-- The list query of the search (lines 149-154): join, condition, offset and
limit, and the eager load of the translations in the language. -/
def searchQuery (s : Store) (name lang : String) (offset limit : Option Int) :
    List City :=
  (applyLimit limit (applyOffset offset
    (((joinRows s).filter (searchCond name lang)).map Prod.fst))).map
    (preload s fun t => t.Language = lang)

/-- The count query of the search (lines 163-167): `count(*)` over the join
with the condition. -/
def searchCount (s : Store) (name lang : String) : Nat :=
  ((joinRows s).filter (searchCond name lang)).length

/-- The sequence that the description of the list operation names: the cities
that own at least one translation, each of them once, in ascending order of
identifier. -/
def joinedCities (s : Store) : List CityRow :=
  (s.cities.filter fun c => s.translations.any fun t => t.CityID = c.ID).insertionSort
    fun a b => a.ID ≤ b.ID

instance : IsTotal CityRow (fun a b => a.ID ≤ b.ID) := ⟨fun a b => Nat.le_total a.ID b.ID⟩

instance : IsTrans CityRow (fun a b => a.ID ≤ b.ID) := ⟨fun _ _ _ h1 h2 => Nat.le_trans h1 h2⟩

instance : IsAntisymm CityRow (fun a b => a.ID < b.ID) :=
  ⟨fun _ _ h1 h2 => absurd h1 (Nat.lt_asymm h2)⟩

/-- The contents of the store after the translations of a city are deleted. -/
def withoutTranslationsOf (s : Store) (id : Nat) : Store :=
  { s with translations := s.translations.filter fun t => ¬ t.CityID = id }

/-- The contents of the store after the rows of a city are deleted. -/
def withoutCity (s : Store) (id : Nat) : Store :=
  { s with cities := s.cities.filter fun c => ¬ c.ID = id }

/-! ## The database handle -/

/-- The handle `initializers.DB`: the contents of the store, the number of
statements issued so far, the ordinals of the statements that the store fails
(connectivity or execution failure), the clock, and the answer of the store to
a lookup whose condition is free SQL text. -/
structure DB where
  store : Store
  issued : Nat
  failing : List Nat
  now : Nat
  rawCity : Store → String → Option CityRow
  rawTranslation : Store → String → Option CityTranslation

/-- The handle after one more statement has been issued. -/
def DB.next (db : DB) : DB := { db with issued := db.issued + 1 }

/-- Whether the store fails the statement issued next. -/
def DB.fails (db : DB) : Bool := db.issued ∈ db.failing

/-- The handle on the contents written by a statement. -/
def DB.setStore (db : DB) (s : Store) : DB := { db with store := s }

/-- Line 54: `DB.Model(&models.City{}).Count(&total)`. -/
def countCities (db : DB) : Option Nat × DB :=
  if db.fails then (none, db.next) else (some db.store.cities.length, db.next)

/-- Lines 63-69: the list query with its eager load. -/
def findCities (db : DB) (offset limit : Int) : Option (List City) × DB :=
  if db.fails then (none, db.next)
  else (some (listQuery db.store (some offset) (some limit)), db.next)

/-- Lines 116-118: `Where("name ILIKE ?", ...).First(&cityTranslation)`; no row
is an error of `First`. -/
def firstTranslationLike (db : DB) (pattern : String) : Option CityTranslation × DB :=
  if db.fails then (none, db.next)
  else (firstBy (fun t => t.ID) (db.store.translations.filter fun t => ILIKE t.Name pattern),
    db.next)

/-- Lines 126-128: `Where("city_id = ? AND language = ?", ...).First(...)`. -/
def firstTranslationOf (db : DB) (cityID : Nat) (lang : String) :
    Option CityTranslation × DB :=
  if db.fails then (none, db.next)
  else (firstBy (fun t => t.ID)
    (db.store.translations.filter fun t => t.CityID = cityID && t.Language = lang), db.next)

/-- Lines 149-154: the list query of the search with its eager load. -/
def findSearch (db : DB) (name lang : String) (offset limit : Int) :
    Option (List City) × DB :=
  if db.fails then (none, db.next)
  else (some (searchQuery db.store name lang (some offset) (some limit)), db.next)

/-- Lines 163-167: the count query of the search. -/
def countSearch (db : DB) (name lang : String) : Option Nat × DB :=
  if db.fails then (none, db.next) else (some (searchCount db.store name lang), db.next)

/-- The call `DB.First(&city, id)` with a number: lookup by primary key. -/
def firstCityByID (db : DB) (id : Nat) : Option CityRow × DB :=
  if db.fails then (none, db.next)
  else (firstBy (fun c => c.ID) (db.store.cities.filter fun c => c.ID = id), db.next)

/-- The call `DB.First(&city, cityID)` with a string: a string that `Atoi`
accepts is the primary key, any other string is sent as the text of the
condition. -/
def firstCity (db : DB) (cityID : String) : Option CityRow × DB :=
  if db.fails then (none, db.next)
  else match Atoi cityID with
    | some n =>
      (firstBy (fun c => c.ID) (db.store.cities.filter fun c => (c.ID : Int) = n), db.next)
    | none => (db.rawCity db.store cityID, db.next)

/-- The call `DB.First(&translation, translationID)` with a string. -/
def firstTranslation (db : DB) (translationID : String) : Option CityTranslation × DB :=
  if db.fails then (none, db.next)
  else match Atoi translationID with
    | some n =>
      (firstBy (fun t => t.ID) (db.store.translations.filter fun t => (t.ID : Int) = n),
        db.next)
    | none => (db.rawTranslation db.store translationID, db.next)

/-- Line 229: `Where("city_id = ?", city.ID).Delete(&models.CityTranslation{})`.
A statement that fails changes nothing. -/
def deleteTranslationsOf (db : DB) (cityID : Nat) : Bool × DB :=
  if db.fails then (false, db.next)
  else (true, db.next.setStore
    { db.store with
      translations := db.store.translations.filter fun t => ¬ t.CityID = cityID })

/-- Line 236: `DB.Delete(&city)`: delete by the primary key of the record; a
record whose primary key is zero gives no condition and the call is refused. -/
def deleteCity (db : DB) (city : CityRow) : Bool × DB :=
  if db.fails ∨ city.ID = 0 then (false, db.next)
  else (true, db.next.setStore
    { db.store with cities := db.store.cities.filter fun c => ¬ c.ID = city.ID })

/-- Line 324: `DB.Create(&newTranslation)`: a record without identifier gets
the next one; an identifier that is already taken is refused. -/
def createTranslation (db : DB) (t : CityTranslation) : Option CityTranslation × DB :=
  if db.fails then (none, db.next)
  else
    let row : CityTranslation :=
      if t.ID = 0 then { t with ID := (db.store.translations.map fun u => u.ID).foldr max 0 + 1 }
      else t
    if db.store.translations.any fun u => u.ID = row.ID then (none, db.next)
    else (some row, db.next.setStore
      { db.store with translations := db.store.translations ++ [row] })

/-- Line 277: `DB.Model(&city).Updates(&updatedCity)`: the non-zero display key
of the body replaces the stored one and the update timestamp is stamped (the
identifier and the soft-delete marker of the body are not written). -/
def updatesCity (db : DB) (city updatedCity : CityRow) : Option CityRow × DB :=
  if db.fails then (none, db.next)
  else
    let patch : CityRow → CityRow := fun c =>
      { c with Hex := if updatedCity.Hex = "" then c.Hex else updatedCity.Hex,
               UpdatedAt := db.now }
    (some (patch city), db.next.setStore
      { db.store with
        cities := db.store.cities.map fun c => if c.ID = city.ID then patch c else c })

/-! ## Responses -/

/-- The JSON responses of the handlers: an error with its HTTP status and
message (the text of the store error that the list stage of `GetCities` adds is
left out), and the success envelopes with their data, message and metadata. -/
inductive Response where
  | error (code : Nat) (message : String)
  | cityList (data : List City) (limit skip : String) (total : Nat)
  | citySearch (data : List City) (limit skip : Int) (total : Nat)
  | translated (data : String)
  | deleted (message : String)
  | city (message : String) (data : City)
  | translation (message : Option String) (data : CityTranslation)
deriving DecidableEq, Repr

/-- The response reports a failure. -/
def Response.isError : Response → Bool
  | Response.error _ _ => true
  | _ => false

/-! ## Handlers -/

/-- The handler `GetCities` (lines 37-91) on the raw `limit` and `skip` query
values. -/
def GetCities (db : DB) (limit skip : Option String) : Response × DB :=
  let limitNumber := limitNumber (Query limit "10")
  let skipNumber := skipNumber (Query skip "0")
  match countCities db with
  | (none, db1) =>
    (Response.error 500 "Failed to fetch cities count from the database", db1)
  | (some total, db1) =>
    match findCities db1 skipNumber limitNumber with
    | (none, db2) =>
      (Response.error 500 "Failed to fetch paginated cities from the database", db2)
    | (some cities, db2) =>
      (Response.cityList cities (Itoa limitNumber) (Itoa skipNumber) total, db2)

/-- The handler `GetName` (lines 93-183) on the raw query values; an absent
`name`, `lang` or `mode` reads as the empty string. -/
def GetName (db : DB) (name lang mode : String) (limit skip : Option String) :
    Response × DB :=
  let limitNumber := limitNumber (Query limit "10")
  let skipNumber := skipNumber (Query skip "0")
  if mode = "translate" then
    match firstTranslationLike db ("%" ++ name ++ "%") with
    | (none, db1) =>
      (Response.error 500 "Failed to fetch city translation from the database", db1)
    | (some cityTranslation, db1) =>
      match firstTranslationOf db1 cityTranslation.CityID lang with
      | (none, db2) =>
        (Response.error 500 "Failed to fetch translated city name from the database", db2)
      | (some translatedCity, db2) => (Response.translated translatedCity.Name, db2)
  else if name = "" ∨ lang = "" then
    (Response.error 400 "Both 'name' and 'lang' parameters are required", db)
  else
    match findSearch db name lang skipNumber limitNumber with
    | (none, db1) => (Response.error 500 "Failed to fetch cities from the database", db1)
    | (some cities, db1) =>
      match countSearch db1 name lang with
      | (none, db2) =>
        (Response.error 500 "Failed to fetch total count from the database", db2)
      | (some total, db2) => (Response.citySearch cities limitNumber skipNumber total, db2)

/-- The handler `DeleteCity` (lines 210-248) on the `id` path parameter. -/
def DeleteCity (db : DB) (cityID : String) : Response × DB :=
  if cityID = "" then (Response.error 400 "City ID is required", db)
  else
    match firstCity db cityID with
    | (none, db1) => (Response.error 404 "City not found", db1)
    | (some city, db1) =>
      match deleteTranslationsOf db1 city.ID with
      | (false, db2) => (Response.error 500 "Failed to delete city translations", db2)
      | (true, db2) =>
        match deleteCity db2 city with
        | (false, db3) => (Response.error 500 "Failed to delete the city", db3)
        | (true, db3) =>
          (Response.deleted "City and associated translations deleted successfully", db3)

/-- The handler `UpdateCity` (lines 250-289) on the `id` path parameter and the
parsed body (`none`: the body does not parse). -/
def UpdateCity (db : DB) (cityID : String) (body : Option CityRow) : Response × DB :=
  if cityID = "" then (Response.error 400 "City ID is required", db)
  else
    match firstCity db cityID with
    | (none, db1) => (Response.error 404 "City not found", db1)
    | (some city, db1) =>
      match body with
      | none => (Response.error 400 "Invalid request data", db1)
      | some updatedCity =>
        match updatesCity db1 city updatedCity with
        | (none, db2) => (Response.error 500 "Failed to update the city", db2)
        | (some city, db2) =>
          (Response.city "City updated successfully" { row := city, Translations := [] }, db2)

/-- The handler `CreateCityTranslation` (lines 291-336) on the parsed body
(`none`: the body does not parse). -/
def CreateCityTranslation (db : DB) (body : Option CityTranslation) : Response × DB :=
  match body with
  | none => (Response.error 400 "Invalid request data", db)
  | some newTranslation =>
    if newTranslation.CityID = 0 then (Response.error 400 "City ID is required", db)
    else
      match firstCityByID db newTranslation.CityID with
      | (none, db1) => (Response.error 404 "City not found", db1)
      | (some city, db1) =>
        match createTranslation db1 { newTranslation with CityID := city.ID } with
        | (none, db2) => (Response.error 500 "Failed to add the new translation", db2)
        | (some created, db2) =>
          (Response.translation (some "New translation added successfully") created, db2)

/-- The handler `GetCityTranslation` (lines 338-360) on the `translationID`
query value. -/
def GetCityTranslation (db : DB) (translationID : String) : Response × DB :=
  if translationID = "" then (Response.error 400 "Translation ID is required", db)
  else
    match firstTranslation db translationID with
    | (none, db1) => (Response.error 404 "Translation not found", db1)
    | (some translation, db1) => (Response.translation none translation, db1)

/-! ## A sample store -/

/-- Three cities; the third owns no translation. -/
def sampleStore : Store :=
  { cities := [⟨2, "b2", 7, none⟩, ⟨1, "a1", 5, none⟩, ⟨3, "c3", 9, none⟩],
    translations :=
      [⟨10, 1, "EN", "Berlin"⟩, ⟨11, 1, "FR", "Berlin"⟩, ⟨12, 2, "EN", "Springfield"⟩,
       ⟨13, 2, "DE", "Springfeld"⟩, ⟨14, 1, "EN", "Berlin Mitte"⟩] }

/-- A handle on the sample store whose statements all succeed. -/
def sampleDB : DB :=
  { store := sampleStore, issued := 0, failing := [], now := 100,
    rawCity := fun _ _ => none, rawTranslation := fun _ _ => none }

/-! ## Lemmas on the query interface -/

@[simp] theorem DB.next_store (db : DB) : db.next.store = db.store := rfl

@[simp] theorem DB.next_issued (db : DB) : db.next.issued = db.issued + 1 := rfl

@[simp] theorem DB.setStore_store (db : DB) (s : Store) : (db.setStore s).store = s := rfl

@[simp] theorem DB.setStore_fails (db : DB) (s : Store) : (db.setStore s).fails = db.fails := rfl

@[simp] theorem DB.setStore_next (db : DB) (s : Store) :
    (db.setStore s).next = db.next.setStore s := rfl

@[simp] theorem DB.setStore_setStore (db : DB) (s s' : Store) :
    (db.setStore s).setStore s' = db.setStore s' := rfl

theorem firstBy_eq_none {α : Type} (key : α → Nat) (l : List α) :
    firstBy key l = none ↔ l = [] := by
  cases l with
  | nil => simp [firstBy]
  | cons a as =>
    simp only [firstBy]
    cases firstBy key as with
    | none => simp
    | some b => simp only; split <;> simp

theorem firstBy_mem {α : Type} (key : α → Nat) (l : List α) (a : α)
    (h : firstBy key l = some a) : a ∈ l := by
  induction l generalizing a with
  | nil => simp [firstBy] at h
  | cons x xs ih =>
    simp only [firstBy] at h
    cases hf : firstBy key xs with
    | none =>
      rw [hf] at h
      simp only [Option.some.injEq] at h
      simp [h]
    | some b =>
      rw [hf] at h
      simp only at h
      split at h
      · simp only [Option.some.injEq] at h
        simp [h]
      · simp only [Option.some.injEq] at h
        subst h
        exact List.mem_cons_of_mem _ (ih b hf)

theorem firstBy_le {α : Type} (key : α → Nat) (l : List α) (a : α)
    (h : firstBy key l = some a) : ∀ b ∈ l, key a ≤ key b := by
  induction l generalizing a with
  | nil => simp [firstBy] at h
  | cons x xs ih =>
    simp only [firstBy] at h
    cases hf : firstBy key xs with
    | none =>
      rw [hf] at h
      simp only [Option.some.injEq] at h
      have hx : xs = [] := (firstBy_eq_none key xs).1 hf
      subst hx; subst h
      intro b hb
      simp only [List.mem_singleton] at hb
      subst hb
      exact Nat.le_refl _
    | some m =>
      rw [hf] at h
      simp only at h
      have hm := ih m hf
      intro b hb
      split at h
      · simp only [Option.some.injEq] at h
        subst h
        rcases List.mem_cons.1 hb with rfl | hb'
        · exact Nat.le_refl _
        · exact Nat.le_trans (by assumption) (hm b hb')
      · simp only [Option.some.injEq] at h
        subst h
        rcases List.mem_cons.1 hb with rfl | hb'
        · omega
        · exact hm b hb'

theorem firstBy_eq_some {α : Type} (key : α → Nat) (l : List α) (a : α)
    (hn : (l.map key).Nodup) (ha : a ∈ l) (hle : ∀ b ∈ l, key a ≤ key b) :
    firstBy key l = some a := by
  cases hf : firstBy key l with
  | none =>
    rw [(firstBy_eq_none key l).1 hf] at ha
    simp at ha
  | some m =>
    have h1 := firstBy_mem key l m hf
    have h2 := firstBy_le key l m hf a ha
    have h3 := hle m h1
    rw [List.inj_on_of_nodup_map hn h1 ha (Nat.le_antisymm h2 h3)]


theorem Atoi_empty : Atoi "" = none := by decide

theorem Atoi_ten : Atoi "10" = some 10 := by decide

theorem Atoi_zero : Atoi "0" = some 0 := by decide

theorem Atoi_ne_empty (s : String) (n : Int) (h : Atoi s = some n) : s ≠ "" := by
  rintro rfl
  simp [Atoi_empty] at h

theorem limitNumber_query_none : limitNumber (Query none "10") = 10 := by decide

theorem skipNumber_query_none : skipNumber (Query none "0") = 0 := by decide

theorem limitNumber_query_some (s : String) :
    limitNumber (Query (some s) "10") = limitNumber s := by
  by_cases h : s = ""
  · subst h; decide
  · simp [Query, h]

theorem skipNumber_query_some (s : String) :
    skipNumber (Query (some s) "0") = skipNumber s := by
  by_cases h : s = ""
  · subst h; decide
  · simp [Query, h]

theorem one_le_limitNumber (s : String) : 1 ≤ limitNumber s := by
  unfold limitNumber
  split
  · decide
  · split <;> omega

theorem zero_le_skipNumber (s : String) : 0 ≤ skipNumber s := by
  unfold skipNumber
  split
  · decide
  · split <;> omega

theorem GetCities_eq (db : DB) (limit skip : Option String) :
    GetCities db limit skip =
      if db.fails then
        (Response.error 500 "Failed to fetch cities count from the database", db.next)
      else if db.next.fails then
        (Response.error 500 "Failed to fetch paginated cities from the database", db.next.next)
      else
        (Response.cityList
          (listQuery db.store (some (skipNumber (Query skip "0")))
            (some (limitNumber (Query limit "10"))))
          (Itoa (limitNumber (Query limit "10"))) (Itoa (skipNumber (Query skip "0")))
          db.store.cities.length, db.next.next) := by
  unfold GetCities countCities findCities
  cases h1 : db.fails
  · cases h2 : db.next.fails <;> simp [h2]
  · simp

theorem GetName_search_eq (db : DB) (name lang mode : String) (limit skip : Option String)
    (hm : mode ≠ "translate") :
    GetName db name lang mode limit skip =
      if name = "" ∨ lang = "" then
        (Response.error 400 "Both 'name' and 'lang' parameters are required", db)
      else if db.fails then
        (Response.error 500 "Failed to fetch cities from the database", db.next)
      else if db.next.fails then
        (Response.error 500 "Failed to fetch total count from the database", db.next.next)
      else
        (Response.citySearch
          (searchQuery db.store name lang (some (skipNumber (Query skip "0")))
            (some (limitNumber (Query limit "10"))))
          (limitNumber (Query limit "10")) (skipNumber (Query skip "0"))
          (searchCount db.store name lang), db.next.next) := by
  unfold GetName findSearch countSearch
  simp only [hm, if_false]
  by_cases h0 : name = "" ∨ lang = ""
  · simp [h0]
  · cases h1 : db.fails
    · cases h2 : db.next.fails <;> simp [h0, h2]
    · simp [h0]

theorem GetName_translate_eq (db : DB) (name lang : String) (limit skip : Option String) :
    GetName db name lang "translate" limit skip =
      if db.fails then
        (Response.error 500 "Failed to fetch city translation from the database", db.next)
      else
        match firstBy (fun t => t.ID)
            (db.store.translations.filter fun t => ILIKE t.Name ("%" ++ name ++ "%")) with
        | none =>
          (Response.error 500 "Failed to fetch city translation from the database", db.next)
        | some cityTranslation =>
          if db.next.fails then
            (Response.error 500 "Failed to fetch translated city name from the database",
              db.next.next)
          else
            match firstBy (fun t => t.ID) (db.store.translations.filter fun t =>
                t.CityID = cityTranslation.CityID && t.Language = lang) with
            | none =>
              (Response.error 500 "Failed to fetch translated city name from the database",
                db.next.next)
            | some translatedCity => (Response.translated translatedCity.Name, db.next.next) := by
  unfold GetName firstTranslationLike firstTranslationOf
  cases h1 : db.fails
  · simp only [if_true, if_false, Bool.false_eq_true]
    cases hf : firstBy (fun t => t.ID)
        (db.store.translations.filter fun t => ILIKE t.Name ("%" ++ name ++ "%")) with
    | none => simp
    | some ct =>
      cases h2 : db.next.fails
      · simp only [if_true, if_false, Bool.false_eq_true, DB.next_store]
        cases hg : firstBy (fun t => t.ID) (db.store.translations.filter fun t =>
            t.CityID = ct.CityID && t.Language = lang) with
        | none => simp [h2]
        | some tr => simp [h2]
      · simp [h2]
  · simp

theorem applyOffset_sublist {α : Type} (offset : Option Int) (rows : List α) :
    (applyOffset offset rows).Sublist rows := by
  unfold applyOffset
  split
  · exact List.Sublist.refl _
  · exact List.drop_sublist _ _

theorem applyLimit_sublist {α : Type} (limit : Option Int) (rows : List α) :
    (applyLimit limit rows).Sublist rows := by
  unfold applyLimit
  split
  · exact List.Sublist.refl _
  · split
    · exact List.Sublist.refl _
    · exact List.take_sublist _ _

theorem mem_joinRows (s : Store) (p : CityRow × CityTranslation) :
    p ∈ joinRows s ↔ p.1 ∈ s.cities ∧ p.2 ∈ s.translations ∧ p.2.CityID = p.1.ID := by
  obtain ⟨c, t⟩ := p
  simp only [joinRows, List.mem_flatMap, List.mem_map, List.mem_filter, decide_eq_true_eq,
    Prod.mk.injEq]
  constructor
  · rintro ⟨c', hc', t', ⟨ht', hid⟩, rfl, rfl⟩
    exact ⟨hc', ht', hid⟩
  · rintro ⟨hc, ht, hid⟩
    exact ⟨c, hc, t, ⟨ht, hid⟩, rfl, rfl⟩

theorem mem_listQuery (s : Store) (offset limit : Option Int) (d : City)
    (h : d ∈ listQuery s offset limit) :
    d.row ∈ s.cities ∧ (∃ t ∈ s.translations, t.CityID = d.row.ID) ∧
      d.Translations = s.translations.filter fun t => t.CityID = d.row.ID := by
  unfold listQuery at h
  obtain ⟨c, hc, rfl⟩ := List.mem_map.1 h
  have h1 := (applyOffset_sublist offset _).subset ((applyLimit_sublist limit _).subset hc)
  rw [List.mem_insertionSort, List.mem_dedup] at h1
  obtain ⟨p, hp, rfl⟩ := List.mem_map.1 h1
  obtain ⟨h2, h3, h4⟩ := (mem_joinRows s p).1 hp
  refine ⟨h2, ⟨p.2, h3, h4⟩, ?_⟩
  simp [preload]

theorem mem_searchQuery (s : Store) (name lang : String) (offset limit : Option Int)
    (d : City) (h : d ∈ searchQuery s name lang offset limit) :
    d.row ∈ s.cities ∧
      (∃ t ∈ s.translations, t.CityID = d.row.ID ∧ t.Language = lang ∧
        ILIKE t.Name ("%" ++ name ++ "%") = true) ∧
      d.Translations = s.translations.filter fun t => t.CityID = d.row.ID && t.Language = lang := by
  unfold searchQuery at h
  obtain ⟨c, hc, rfl⟩ := List.mem_map.1 h
  have h1 := (applyOffset_sublist offset _).subset ((applyLimit_sublist limit _).subset hc)
  obtain ⟨p, hp, rfl⟩ := List.mem_map.1 h1
  obtain ⟨hp1, hp2⟩ := List.mem_filter.1 hp
  obtain ⟨h2, h3, h4⟩ := (mem_joinRows s p).1 hp1
  simp only [searchCond, Bool.and_eq_true, decide_eq_true_eq] at hp2
  exact ⟨h2, ⟨p.2, h3, h4, hp2.2, hp2.1⟩, rfl⟩

theorem GetCities_success (db : DB) (limit skip : Option String) (data : List City)
    (l k : String) (total : Nat)
    (h : (GetCities db limit skip).1 = Response.cityList data l k total) :
    data = listQuery db.store (some (skipNumber (Query skip "0")))
        (some (limitNumber (Query limit "10"))) ∧
      l = Itoa (limitNumber (Query limit "10")) ∧ k = Itoa (skipNumber (Query skip "0")) ∧
      total = db.store.cities.length := by
  rw [GetCities_eq] at h
  split at h
  · simp at h
  · split at h
    · simp at h
    · simp only [Response.cityList.injEq] at h
      exact ⟨h.1.symm, h.2.1.symm, h.2.2.1.symm, h.2.2.2.symm⟩

/-! ## Pagination parameters -/

/-- C1: in `GetCities` and in `GetName` the effective limit is the number that
the raw `limit` value parses to when that number is at least 1 and is 10
otherwise, the effective skip is the number that the raw `skip` value parses to
when that number is at least 0 and is 0 otherwise; the two are coerced
independently, they are the values the queries and the metadata use, and
whether the operation reports an error does not depend on either raw value. -/
theorem pagination_coercion (db : DB) (name lang mode : String)
    (limit skip : Option String) :
    (∀ s n, limit = some s → Atoi s = some n → 1 ≤ n →
      limitNumber (Query limit "10") = n) ∧
    ((∀ s n, limit = some s → Atoi s = some n → n < 1) →
      limitNumber (Query limit "10") = 10) ∧
    (∀ s n, skip = some s → Atoi s = some n → 0 ≤ n →
      skipNumber (Query skip "0") = n) ∧
    ((∀ s n, skip = some s → Atoi s = some n → n < 0) →
      skipNumber (Query skip "0") = 0) ∧
    (∀ data l k total, (GetCities db limit skip).1 = Response.cityList data l k total →
      l = Itoa (limitNumber (Query limit "10")) ∧ k = Itoa (skipNumber (Query skip "0")) ∧
      data = listQuery db.store (some (skipNumber (Query skip "0")))
        (some (limitNumber (Query limit "10")))) ∧
    (∀ data l k total,
      (GetName db name lang mode limit skip).1 = Response.citySearch data l k total →
      l = limitNumber (Query limit "10") ∧ k = skipNumber (Query skip "0") ∧
      data = searchQuery db.store name lang (some (skipNumber (Query skip "0")))
        (some (limitNumber (Query limit "10")))) ∧
    (∀ limit' skip', (GetCities db limit' skip').1.isError =
      (GetCities db limit skip).1.isError) ∧
    (∀ limit' skip', (GetName db name lang mode limit' skip').1.isError =
      (GetName db name lang mode limit skip).1.isError) := by
  refine ⟨?_, ?_, ?_, ?_, ?_, ?_, ?_, ?_⟩
  · rintro s n rfl hs hn
    rw [limitNumber_query_some]
    unfold limitNumber
    rw [hs]
    simp only
    rw [if_neg (by omega)]
  · intro h
    cases limit with
    | none => exact limitNumber_query_none
    | some s =>
      rw [limitNumber_query_some]
      unfold limitNumber
      cases hs : Atoi s with
      | none => rfl
      | some n => simp only; rw [if_pos (h s n rfl hs)]
  · rintro s n rfl hs hn
    rw [skipNumber_query_some]
    unfold skipNumber
    rw [hs]
    simp only
    rw [if_neg (by omega)]
  · intro h
    cases skip with
    | none => exact skipNumber_query_none
    | some s =>
      rw [skipNumber_query_some]
      unfold skipNumber
      cases hs : Atoi s with
      | none => rfl
      | some n => simp only; rw [if_pos (h s n rfl hs)]
  · intro data l k total h
    obtain ⟨h1, h2, h3, _⟩ := GetCities_success _ _ _ _ _ _ _ h
    exact ⟨h2, h3, h1⟩
  · intro data l k total h
    by_cases hm : mode = "translate"
    · subst hm
      rw [GetName_translate_eq] at h
      split at h
      · simp at h
      · split at h
        · simp at h
        · split at h
          · simp at h
          · split at h <;> simp at h
    · rw [GetName_search_eq _ _ _ _ _ _ hm] at h
      split at h
      · simp at h
      · split at h
        · simp at h
        · split at h
          · simp at h
          · simp only [Response.citySearch.injEq] at h
            exact ⟨h.2.1.symm, h.2.2.1.symm, h.1.symm⟩
  · intro limit' skip'
    rw [GetCities_eq, GetCities_eq]
    cases db.fails <;> cases db.next.fails <;> simp [Response.isError]
  · intro limit' skip'
    by_cases hm : mode = "translate"
    · subst hm
      rw [GetName_translate_eq, GetName_translate_eq]
    · rw [GetName_search_eq _ _ _ _ _ _ hm, GetName_search_eq _ _ _ _ _ _ hm]
      by_cases h0 : name = "" ∨ lang = ""
      · simp [h0]
      · cases db.fails <;> cases db.next.fails <;> simp [h0, Response.isError]

/-! ## Client-input error of the search -/

/-- C8: outside translate mode `GetName` answers with the bad-request error
"Both 'name' and 'lang' parameters are required" if and only if `name` or `lang`
is empty, and then no statement is issued: the database handle is unchanged. -/
theorem GetName_bad_request (db : DB) (name lang mode : String)
    (limit skip : Option String) (hm : mode ≠ "translate") :
    ((GetName db name lang mode limit skip).1 =
        Response.error 400 "Both 'name' and 'lang' parameters are required" ↔
      name = "" ∨ lang = "") ∧
    (name = "" ∨ lang = "" → (GetName db name lang mode limit skip).2 = db) := by
  rw [GetName_search_eq _ _ _ _ _ _ hm]
  by_cases h0 : name = "" ∨ lang = ""
  · simp [h0]
  · cases db.fails <;> cases db.next.fails <;> simp [h0]

theorem GetName_bad_request_witness :
    ((GetName sampleDB "" "EN" "" (some "3") none).1 =
        Response.error 400 "Both 'name' and 'lang' parameters are required" ↔
      "" = "" ∨ "EN" = "") ∧
    ("" = "" ∨ "EN" = "" → (GetName sampleDB "" "EN" "" (some "3") none).2 = sampleDB) :=
  GetName_bad_request sampleDB "" "EN" "" (some "3") none (by decide)

/-! ## Totals -/

/-- C9: the total of a successful `GetCities` is the number of rows of the
cities table, whatever the limit, the skip and the translations table are; a
city that owns no translation is counted although it is not in the data. -/
theorem GetCities_total (db : DB) (limit skip : Option String) (data : List City)
    (l k : String) (total : Nat)
    (h : (GetCities db limit skip).1 = Response.cityList data l k total) :
    total = db.store.cities.length ∧
    (∀ (db' : DB) limit' skip' data' l' k' total',
      db'.store.cities = db.store.cities →
      (GetCities db' limit' skip').1 = Response.cityList data' l' k' total' →
      total' = total) ∧
    (∀ c ∈ db.store.cities, (∀ t ∈ db.store.translations, t.CityID ≠ c.ID) →
      ∀ d ∈ data, d.row.ID ≠ c.ID) := by
  obtain ⟨h2, _, _, h1⟩ := GetCities_success _ _ _ _ _ _ _ h
  refine ⟨h1, ?_, ?_⟩
  · intro db' limit' skip' data' l' k' total' hc h'
    rw [(GetCities_success _ _ _ _ _ _ _ h').2.2.2, hc, h1]
  · intro c _ hno d hd hid
    rw [h2] at hd
    obtain ⟨_, ⟨t, ht, htc⟩, _⟩ := mem_listQuery _ _ _ _ hd
    exact hno t ht (htc.trans hid)

theorem GetCities_total_witness : 3 = sampleDB.store.cities.length :=
  (GetCities_total sampleDB (some "1") (some "1")
    [⟨⟨2, "b2", 7, none⟩, [⟨12, 2, "EN", "Springfield"⟩, ⟨13, 2, "DE", "Springfeld"⟩]⟩]
    "1" "1" 3 (by decide)).1

/-- C4: outside translate mode the total of a successful `GetName` is the number
of entries that the list query of the search returns for the same `name` and
`lang` without limit and offset, and it is the same for every limit and skip. -/
theorem GetName_total (db : DB) (name lang mode : String) (limit skip : Option String)
    (data : List City) (l k : Int) (total : Nat) (hm : mode ≠ "translate")
    (h : (GetName db name lang mode limit skip).1 = Response.citySearch data l k total) :
    total = (searchQuery db.store name lang none none).length ∧
    (∀ limit' skip' data' l' k' total',
      (GetName db name lang mode limit' skip').1 = Response.citySearch data' l' k' total' →
      total' = total) := by
  have key : ∀ limit skip data l k total,
      (GetName db name lang mode limit skip).1 = Response.citySearch data l k total →
      total = searchCount db.store name lang := by
    intro limit skip data l k total h
    rw [GetName_search_eq _ _ _ _ _ _ hm] at h
    split at h
    · simp at h
    · split at h
      · simp at h
      · split at h
        · simp at h
        · simp only [Response.citySearch.injEq] at h
          exact h.2.2.2.symm
  have h1 := key _ _ _ _ _ _ h
  refine ⟨?_, ?_⟩
  · rw [h1]
    simp [searchQuery, searchCount, applyLimit, applyOffset]
  · intro limit' skip' data' l' k' total' h'
    rw [key _ _ _ _ _ _ h', h1]

theorem GetName_total_witness :
    2 = (searchQuery sampleDB.store "berl" "EN" none none).length :=
  (GetName_total sampleDB "berl" "EN" "" (some "1") (some "1")
    [⟨⟨1, "a1", 5, none⟩, [⟨10, 1, "EN", "Berlin"⟩, ⟨14, 1, "EN", "Berlin Mitte"⟩]⟩]
    1 1 2 (by decide) (by decide)).1


/-! ## Record lifecycle -/

theorem firstCity_found (db : DB) (cityID : String) (id : Nat)
    (hkey : Atoi cityID = some (id : Int)) (hc : ∃ c ∈ db.store.cities, c.ID = id)
    (hf : db.fails = false) :
    ∃ city, firstCity db cityID = (some city, db.next) ∧ city.ID = id ∧
      city ∈ db.store.cities := by
  unfold firstCity
  simp only [hf, hkey, if_false, Bool.false_eq_true]
  cases hfb : firstBy (fun c => c.ID)
      (db.store.cities.filter fun c => (c.ID : Int) = (id : Int)) with
  | none =>
    obtain ⟨c, hc1, hc2⟩ := hc
    have := (firstBy_eq_none _ _).1 hfb
    have hmem : c ∈ db.store.cities.filter fun c => (c.ID : Int) = (id : Int) := by
      simp [List.mem_filter, hc1, hc2]
    rw [this] at hmem
    simp at hmem
  | some city =>
    have hmem := firstBy_mem _ _ _ hfb
    simp only [List.mem_filter, decide_eq_true_eq, Nat.cast_inj] at hmem
    exact ⟨city, rfl, hmem.2, hmem.1⟩

theorem firstCity_missing (db : DB) (cityID : String) (id : Nat)
    (hkey : Atoi cityID = some (id : Int)) (hc : ∀ c ∈ db.store.cities, c.ID ≠ id) :
    firstCity db cityID = (none, db.next) := by
  unfold firstCity
  cases hf : db.fails
  · simp only [hkey, if_false, Bool.false_eq_true]
    have : (db.store.cities.filter fun c => (c.ID : Int) = (id : Int)) = [] := by
      simp only [List.filter_eq_nil_iff, decide_eq_true_eq, Nat.cast_inj]
      exact hc
    rw [this]
    rfl
  · simp

theorem firstTranslation_missing (db : DB) (translationID : String) (id : Nat)
    (hkey : Atoi translationID = some (id : Int))
    (hc : ∀ t ∈ db.store.translations, t.ID ≠ id) :
    firstTranslation db translationID = (none, db.next) := by
  unfold firstTranslation
  cases hf : db.fails
  · simp only [hkey, if_false, Bool.false_eq_true]
    have : (db.store.translations.filter fun t => (t.ID : Int) = (id : Int)) = [] := by
      simp only [List.filter_eq_nil_iff, decide_eq_true_eq, Nat.cast_inj]
      exact hc
    rw [this]
    rfl
  · simp

theorem firstCityByID_missing (db : DB) (id : Nat)
    (hc : ∀ c ∈ db.store.cities, c.ID ≠ id) :
    firstCityByID db id = (none, db.next) := by
  unfold firstCityByID
  cases hf : db.fails
  · simp only [if_false, Bool.false_eq_true]
    have : (db.store.cities.filter fun c => c.ID = id) = [] := by
      simp only [List.filter_eq_nil_iff, decide_eq_true_eq]
      exact hc
    rw [this]
    rfl
  · simp

theorem DeleteCity_eq (db : DB) (cityID : String) (id : Nat)
    (hkey : Atoi cityID = some (id : Int)) (hc : ∃ c ∈ db.store.cities, c.ID = id) :
    DeleteCity db cityID =
      if db.fails then (Response.error 404 "City not found", db.next)
      else if db.next.fails then
        (Response.error 500 "Failed to delete city translations", db.next.next)
      else if db.next.next.fails ∨ id = 0 then
        (Response.error 500 "Failed to delete the city",
          db.next.next.next.setStore (withoutTranslationsOf db.store id))
      else
        (Response.deleted "City and associated translations deleted successfully",
          db.next.next.next.setStore (withoutCity (withoutTranslationsOf db.store id) id)) := by
  unfold DeleteCity
  rw [if_neg (Atoi_ne_empty _ _ hkey)]
  cases h1 : db.fails
  · obtain ⟨city, hfc, hid, _⟩ := firstCity_found db cityID id hkey hc h1
    rw [hfc]
    simp only [hid, if_false, Bool.false_eq_true]
    unfold deleteTranslationsOf deleteCity
    cases h2 : db.next.fails
    · simp only [if_false, Bool.false_eq_true, DB.setStore_fails, DB.setStore_next,
        DB.setStore_store, DB.next_store, DB.setStore_setStore, hid]
      by_cases h3 : db.next.next.fails = true ∨ id = 0
      · rw [if_pos h3, if_pos h3]
        rfl
      · rw [if_neg h3, if_neg h3]
        rfl
    · simp
  · simp [firstCity, h1]

/-- C6: when the store has a city with the identifier and `DeleteCity` succeeds,
the store afterwards has no city with the identifier and no translation owned
by it, so that `DeleteCity` and `UpdateCity` on the identifier report "City not
found" and `GetCityTranslation` on the identifier of a translation it owned
reports "Translation not found"; the deletion succeeds whenever the store
fails none of the three statements (and the identifier is not zero). -/
theorem DeleteCity_removes (db : DB) (cityID : String) (id : Nat)
    (hkey : Atoi cityID = some (id : Int)) (hc : ∃ c ∈ db.store.cities, c.ID = id)
    (hpk : (db.store.translations.map fun t => t.ID).Nodup) :
    ((DeleteCity db cityID).1 =
        Response.deleted "City and associated translations deleted successfully" →
      (∀ c ∈ (DeleteCity db cityID).2.store.cities, c.ID ≠ id) ∧
      (∀ t ∈ (DeleteCity db cityID).2.store.translations, t.CityID ≠ id) ∧
      (DeleteCity (DeleteCity db cityID).2 cityID).1 = Response.error 404 "City not found" ∧
      (∀ body, (UpdateCity (DeleteCity db cityID).2 cityID body).1 =
        Response.error 404 "City not found") ∧
      (∀ t ∈ db.store.translations, t.CityID = id →
        ∀ translationID, Atoi translationID = some (t.ID : Int) →
          (GetCityTranslation (DeleteCity db cityID).2 translationID).1 =
            Response.error 404 "Translation not found")) ∧
    (db.fails = false → db.next.fails = false → db.next.next.fails = false → id ≠ 0 →
      (DeleteCity db cityID).1 =
        Response.deleted "City and associated translations deleted successfully") := by
  rw [DeleteCity_eq db cityID id hkey hc]
  constructor
  · intro h
    cases h1 : db.fails
    · cases h2 : db.next.fails
      · by_cases h3 : db.next.next.fails = true ∨ id = 0
        · simp [h1, h2, h3] at h
        · simp only [h3, if_false, Bool.false_eq_true, DB.setStore_store]
          have hcities : ∀ c ∈ (withoutCity (withoutTranslationsOf db.store id) id).cities,
              c.ID ≠ id := by
            intro c hcm
            simp only [withoutCity, List.mem_filter, decide_eq_true_eq] at hcm
            exact hcm.2
          have htrans : ∀ t ∈ (withoutCity (withoutTranslationsOf db.store id) id).translations,
              t.CityID ≠ id := by
            intro t htm
            simp only [withoutCity, withoutTranslationsOf, List.mem_filter,
              decide_eq_true_eq] at htm
            exact htm.2
          refine ⟨hcities, htrans, ?_, ?_, ?_⟩
          · unfold DeleteCity
            rw [if_neg (Atoi_ne_empty _ _ hkey), firstCity_missing _ cityID id hkey hcities]
          · intro body
            unfold UpdateCity
            rw [if_neg (Atoi_ne_empty _ _ hkey), firstCity_missing _ cityID id hkey hcities]
          · intro t ht htid translationID htkey
            unfold GetCityTranslation
            rw [if_neg (Atoi_ne_empty _ _ htkey),
              firstTranslation_missing _ translationID t.ID htkey]
            intro u hu huid
            simp only [DB.setStore_store, withoutCity, withoutTranslationsOf, List.mem_filter,
              decide_eq_true_eq] at hu
            have : u = t := List.inj_on_of_nodup_map hpk hu.1 ht huid
            rw [this] at hu
            exact hu.2 htid
      · simp [h1, h2] at h
    · simp [h1] at h
  · intro h1 h2 h3 h0
    simp [h1, h2, h3, h0]

theorem DeleteCity_removes_witness :
    (DeleteCity sampleDB "1").1 =
      Response.deleted "City and associated translations deleted successfully" :=
  (DeleteCity_removes sampleDB "1" 1 (by decide) (by decide) (by decide)).2
    (by decide) (by decide) (by decide) (by decide)

/-- C10: `DeleteCity` is not atomic.  When the store has a city with the
identifier that owns a translation, the lookup and the deletion of the
translations succeed and the deletion of the city row fails, the answer is
"Failed to delete the city" and the store has changed: the translations of the
city are gone and its row is still there.  When the deletion of the
translations fails, the store is unchanged. -/
theorem DeleteCity_not_atomic (db : DB) (cityID : String) (id : Nat)
    (hkey : Atoi cityID = some (id : Int)) (hc : ∃ c ∈ db.store.cities, c.ID = id)
    (ht : ∃ t ∈ db.store.translations, t.CityID = id) :
    (db.fails = false → db.next.fails = false → db.next.next.fails = true →
      (DeleteCity db cityID).1 = Response.error 500 "Failed to delete the city" ∧
      (DeleteCity db cityID).2.store.cities = db.store.cities ∧
      (DeleteCity db cityID).2.store.translations =
        db.store.translations.filter (fun t => ¬ t.CityID = id) ∧
      (∃ c ∈ (DeleteCity db cityID).2.store.cities, c.ID = id) ∧
      (∀ t ∈ (DeleteCity db cityID).2.store.translations, t.CityID ≠ id) ∧
      (DeleteCity db cityID).2.store ≠ db.store) ∧
    (db.fails = false → db.next.fails = true →
      (DeleteCity db cityID).1 = Response.error 500 "Failed to delete city translations" ∧
      (DeleteCity db cityID).2.store = db.store) := by
  rw [DeleteCity_eq db cityID id hkey hc]
  constructor
  · intro h1 h2 h3
    simp only [h1, h2, h3, true_or, if_true, if_false, Bool.false_eq_true, DB.setStore_store]
    have hgone : ∀ t ∈ (withoutTranslationsOf db.store id).translations, t.CityID ≠ id := by
      intro t htm
      simp only [withoutTranslationsOf, List.mem_filter, decide_eq_true_eq] at htm
      exact htm.2
    refine ⟨trivial, rfl, rfl, hc, hgone, ?_⟩
    intro heq
    obtain ⟨t, htm, htid⟩ := ht
    rw [← heq] at htm
    exact hgone t htm htid
  · intro h1 h2
    simp [h1, h2]

theorem DeleteCity_not_atomic_witness :
    (DeleteCity { sampleDB with failing := [2] } "1").1 =
      Response.error 500 "Failed to delete the city" :=
  ((DeleteCity_not_atomic { sampleDB with failing := [2] } "1" 1 (by decide) (by decide)
    (by decide)).1 (by decide) (by decide) (by decide)).1

/-- C7: when the city identifier of the body is not zero and is not the
identifier of a city of the store, `CreateCityTranslation` answers "City not
found" and leaves the store as it is; whenever the handler changes the store,
the city identifier of the body is the identifier of a city of the store. -/
theorem CreateCityTranslation_unknown_city (db : DB) (newTranslation : CityTranslation)
    (h0 : newTranslation.CityID ≠ 0)
    (hno : ∀ c ∈ db.store.cities, c.ID ≠ newTranslation.CityID) :
    (CreateCityTranslation db (some newTranslation)).1 = Response.error 404 "City not found" ∧
    (CreateCityTranslation db (some newTranslation)).2.store = db.store ∧
    (∀ (db' : DB) body, (CreateCityTranslation db' body).2.store ≠ db'.store →
      ∃ t, body = some t ∧ ∃ c ∈ db'.store.cities, c.ID = t.CityID) := by
  refine ⟨?_, ?_, ?_⟩
  · unfold CreateCityTranslation
    simp only [h0, if_false]
    rw [firstCityByID_missing db _ hno]
  · unfold CreateCityTranslation
    simp only [h0, if_false]
    rw [firstCityByID_missing db _ hno]
    rfl
  · intro db' body hch
    cases body with
    | none => simp [CreateCityTranslation] at hch
    | some t =>
      refine ⟨t, rfl, ?_⟩
      by_contra hne
      have hno' : ∀ c ∈ db'.store.cities, c.ID ≠ t.CityID := by
        intro c hcm hid
        exact hne ⟨c, hcm, hid⟩
      apply hch
      unfold CreateCityTranslation
      simp only
      split
      · rfl
      · rw [firstCityByID_missing db' _ hno']
        rfl

theorem CreateCityTranslation_unknown_city_witness :
    (CreateCityTranslation sampleDB (some ⟨0, 99999, "EN", "Atlantis"⟩)).1 =
      Response.error 404 "City not found" :=
  (CreateCityTranslation_unknown_city sampleDB ⟨0, 99999, "EN", "Atlantis"⟩ (by decide)
    (by decide)).1

/-! ## The page of the list operation -/

theorem insertionSort_strict (l : List CityRow) (hn : (l.map fun c => c.ID).Nodup) :
    (l.insertionSort fun a b => a.ID ≤ b.ID).Pairwise fun a b => a.ID < b.ID := by
  have h1 : (l.insertionSort fun a b => a.ID ≤ b.ID).Pairwise fun a b => a.ID ≤ b.ID :=
    List.sorted_insertionSort (fun a b : CityRow => a.ID ≤ b.ID) l
  have h2 : ((l.insertionSort fun a b => a.ID ≤ b.ID).map fun c => c.ID).Nodup :=
    ((List.perm_insertionSort (fun a b : CityRow => a.ID ≤ b.ID) l).map _).nodup_iff.2 hn
  have h3 : (l.insertionSort fun a b => a.ID ≤ b.ID).Pairwise fun a b => a.ID ≠ b.ID := by
    unfold List.Nodup at h2
    rw [List.pairwise_map] at h2
    exact h2
  exact (h1.and h3).imp fun h => Nat.lt_of_le_of_ne h.1 h.2

theorem joined_perm (s : Store) (hpk : (s.cities.map fun c => c.ID).Nodup) :
    ((joinRows s).map Prod.fst).dedup.Perm
      (s.cities.filter fun c => s.translations.any fun t => t.CityID = c.ID) := by
  rw [List.perm_ext_iff_of_nodup (List.nodup_dedup _) (List.Nodup.filter _ hpk.of_map)]
  intro c
  simp only [List.mem_dedup, List.mem_map, List.mem_filter, List.any_eq_true,
    decide_eq_true_eq]
  constructor
  · rintro ⟨p, hp, rfl⟩
    obtain ⟨h1, h2, h3⟩ := (mem_joinRows s p).1 hp
    exact ⟨h1, p.2, h2, h3⟩
  · rintro ⟨h1, t, h2, h3⟩
    exact ⟨(c, t), (mem_joinRows s (c, t)).2 ⟨h1, h2, h3⟩, rfl⟩

theorem sorted_join_eq (s : Store) (hpk : (s.cities.map fun c => c.ID).Nodup) :
    (((joinRows s).map Prod.fst).dedup.insertionSort fun a b => a.ID ≤ b.ID) =
      joinedCities s := by
  have hp := joined_perm s hpk
  have hS : ((s.cities.filter fun c => s.translations.any fun t => t.CityID = c.ID).map
      fun c => c.ID).Nodup :=
    hpk.sublist ((List.filter_sublist _).map _)
  have hR : ((((joinRows s).map Prod.fst).dedup).map fun c => c.ID).Nodup :=
    (hp.map _).nodup_iff.2 hS
  refine List.eq_of_perm_of_sorted (r := fun a b : CityRow => a.ID < b.ID) ?_
    (insertionSort_strict _ hR) (insertionSort_strict _ hS)
  exact ((List.perm_insertionSort _ _).trans hp).trans (List.perm_insertionSort _ _).symm

theorem joinedCities_strict (s : Store) (hpk : (s.cities.map fun c => c.ID).Nodup) :
    (joinedCities s).Pairwise fun a b => a.ID < b.ID :=
  insertionSort_strict _ (hpk.sublist ((List.filter_sublist _).map _))

theorem listQuery_rows (s : Store) (offset limit : Int) (hl : 0 ≤ limit)
    (hpk : (s.cities.map fun c => c.ID).Nodup) :
    (listQuery s (some offset) (some limit)).map (fun d => d.row) =
      ((joinedCities s).drop offset.toNat).take limit.toNat := by
  unfold listQuery applyLimit applyOffset
  simp only [if_neg (not_lt.2 hl), List.map_map]
  rw [sorted_join_eq s hpk]
  have : ((fun d : City => d.row) ∘ preload s fun _ => true) = id := by
    funext c
    rfl
  rw [this, List.map_id]

/-- C2: with the identifiers of the cities unique, the data of a successful
`GetCities` has at most `limit` cities, has no city twice, is in strictly
ascending order of city identifier, and its rows are the entries at the
positions from `skip` up to `skip + limit` of the sequence of the cities that own
a translation, each once, in ascending order of identifier; the effective
limit is at least 1 and the effective skip at least 0. -/
theorem GetCities_page (db : DB) (limit skip : Option String) (data : List City)
    (l k : String) (total : Nat)
    (hpk : (db.store.cities.map fun c => c.ID).Nodup)
    (h : (GetCities db limit skip).1 = Response.cityList data l k total) :
    1 ≤ limitNumber (Query limit "10") ∧ 0 ≤ skipNumber (Query skip "0") ∧
    data.length ≤ (limitNumber (Query limit "10")).toNat ∧
    data.Nodup ∧
    (data.map fun d => d.row.ID).Pairwise (fun a b => a < b) ∧
    data.map (fun d => d.row) =
      ((joinedCities db.store).drop (skipNumber (Query skip "0")).toNat).take
        (limitNumber (Query limit "10")).toNat := by
  have hL := one_le_limitNumber (Query limit "10")
  have hK := zero_le_skipNumber (Query skip "0")
  have hd := (GetCities_success _ _ _ _ _ _ _ h).1
  have hrows := listQuery_rows db.store (skipNumber (Query skip "0"))
    (limitNumber (Query limit "10")) (by omega) hpk
  rw [← hd] at hrows
  have hsorted : (data.map fun d => d.row.ID).Pairwise (fun a b => a < b) := by
    have h1 : (data.map fun d => d.row).Pairwise fun a b => a.ID < b.ID := by
      rw [hrows]
      exact ((joinedCities_strict db.store hpk).sublist (List.drop_sublist _ _)).sublist
        (List.take_sublist _ _)
    rw [List.pairwise_map] at h1 ⊢
    exact h1
  refine ⟨hL, hK, ?_, ?_, hsorted, hrows⟩
  · have := congrArg List.length hrows
    rw [List.length_map] at this
    rw [this]
    exact List.length_take_le _ _
  · have hn : (data.map fun d => d.row.ID).Nodup := hsorted.imp fun h => Nat.ne_of_lt h
    exact hn.of_map

theorem GetCities_page_witness :
    [(⟨2, "b2", 7, none⟩ : CityRow)] = ((joinedCities sampleDB.store).drop 1).take 1 :=
  (GetCities_page sampleDB (some "1") (some "1")
    [⟨⟨2, "b2", 7, none⟩, [⟨12, 2, "EN", "Springfield"⟩, ⟨13, 2, "DE", "Springfeld"⟩]⟩]
    "1" "1" 3 (by decide) (by decide)).2.2.2.2.2

/-! ## Patterns -/

theorem endsInEscape_snoc (cs : List Char) : endsInEscape (cs ++ ['%']) = false := by
  obtain ⟨n, hn⟩ : ∃ n, cs.length = n := ⟨_, rfl⟩
  induction n using Nat.strong_induction_on generalizing cs with
  | _ n ih =>
    cases cs with
    | nil => decide
    | cons c cs' =>
      by_cases hc : c = '\\'
      · cases cs' with
        | nil => subst hc; decide
        | cons d ds =>
          rw [List.cons_append, List.cons_append, endsInEscape.eq_def]
          simp only [hc, if_true]
          exact ih ds.length (by simp at hn; omega) ds rfl
      · rw [List.cons_append, endsInEscape.eq_def]
        simp only [hc, if_false]
        exact ih cs'.length (by simp at hn; omega) cs' rfl

theorem wrap_data (name : String) :
    ("%" ++ name ++ "%").data = '%' :: (name.data ++ ['%']) := by
  simp [String.data_append]

theorem endsInEscape_wrap (name : String) :
    endsInEscape ("%" ++ name ++ "%").data = false := by
  rw [wrap_data]
  exact endsInEscape_snoc ('%' :: name.data)

theorem likeTokens_plain (ns rest : List Char)
    (h : ∀ c ∈ ns, c ≠ '%' ∧ c ≠ '_' ∧ c ≠ '\\') :
    likeTokens (ns ++ rest) = ns.map LikeTok.lit ++ likeTokens rest := by
  induction ns with
  | nil => rfl
  | cons c cs ih =>
    have hc := h c (List.mem_cons_self _ _)
    have ih' := ih fun d hd => h d (List.mem_cons_of_mem _ hd)
    rw [List.cons_append, likeTokens.eq_def]
    simp only [hc.1, hc.2.1, hc.2.2, if_false, ih', List.map_cons, List.cons_append]

theorem likeTokens_wrap (name : String) (h : plainName name) :
    likeTokens ("%" ++ name ++ "%").data =
      LikeTok.anySeq :: (name.data.map LikeTok.lit ++ [LikeTok.anySeq]) := by
  rw [wrap_data]
  have : likeTokens ['%'] = [LikeTok.anySeq] := by decide
  rw [likeTokens.eq_def]
  simp only [if_true, likeTokens_plain name.data ['%'] h, this]

theorem likeMatch_lits (ns t : List Char) :
    likeMatch (ns.map LikeTok.lit ++ [LikeTok.anySeq]) t = true ↔
      ns.map Char.toLower <+: t.map Char.toLower := by
  induction ns generalizing t with
  | nil =>
    simp only [List.map_nil, List.nil_append, likeMatch, List.any_eq_true, List.nil_prefix,
      iff_true]
    exact ⟨[], (List.mem_tails _ _).2 List.nil_suffix, rfl⟩
  | cons c cs ih =>
    cases t with
    | nil => simp [likeMatch]
    | cons x t' =>
      rw [List.map_cons, List.cons_append, likeMatch, Bool.and_eq_true, beq_iff_eq,
        ih t', List.map_cons, List.map_cons, List.cons_prefix_cons]
      constructor
      · rintro ⟨h1, h2⟩
        exact ⟨h1.symm, h2⟩
      · rintro ⟨h1, h2⟩
        exact ⟨h1.symm, h2⟩

theorem likeMatch_tails (ns t : List Char) :
    (t.tails.any fun u => likeMatch (ns.map LikeTok.lit ++ [LikeTok.anySeq]) u) = true ↔
      ns.map Char.toLower <:+: t.map Char.toLower := by
  induction t with
  | nil =>
    simp only [List.tails, List.any_cons, List.any_nil, Bool.or_false, likeMatch_lits,
      List.map_nil, List.prefix_nil, List.infix_nil]
  | cons x t' ih =>
    rw [List.tails_cons, List.any_cons, Bool.or_eq_true, ih, likeMatch_lits, List.map_cons,
      List.infix_cons_iff]

theorem ILIKE_wrap (text name : String) (h : plainName name) :
    ILIKE text ("%" ++ name ++ "%") = true ↔ containsIgnoreCase text name := by
  unfold ILIKE containsIgnoreCase
  rw [likeTokens_wrap name h]
  simp only [likeMatch]
  exact likeMatch_tails name.data text.data

/-! ## Search by translated name -/

theorem GetName_success (db : DB) (name lang mode : String) (limit skip : Option String)
    (data : List City) (l k : Int) (total : Nat) (hm : mode ≠ "translate")
    (h : (GetName db name lang mode limit skip).1 = Response.citySearch data l k total) :
    name ≠ "" ∧ lang ≠ "" ∧
      data = searchQuery db.store name lang (some (skipNumber (Query skip "0")))
        (some (limitNumber (Query limit "10"))) ∧
      total = searchCount db.store name lang := by
  rw [GetName_search_eq _ _ _ _ _ _ hm] at h
  split at h
  · simp at h
  · rename_i h0
    split at h
    · simp at h
    · split at h
      · simp at h
      · simp only [Response.citySearch.injEq] at h
        exact ⟨fun hn => h0 (Or.inl hn), fun hl => h0 (Or.inr hl), h.1.symm, h.2.2.2.symm⟩

/-- C3 (amended): each city in the data of a successful `GetName` outside
translate mode (a) owns a translation whose language equals `lang` and whose
name matches the pattern "%" ++ name ++ "%" under `ILIKE`, which for a `name`
without the characters `%`, `_` and `\` means that it contains `name` as a
substring ignoring case, and (b) carries as attached translations only
translations of that city whose language equals `lang`. -/
theorem GetName_search_data (db : DB) (name lang mode : String)
    (limit skip : Option String) (data : List City) (l k : Int) (total : Nat)
    (hm : mode ≠ "translate")
    (h : (GetName db name lang mode limit skip).1 = Response.citySearch data l k total) :
    name ≠ "" ∧ lang ≠ "" ∧
    ∀ d ∈ data,
      (∃ t ∈ db.store.translations, t.CityID = d.row.ID ∧ t.Language = lang ∧
        ILIKE t.Name ("%" ++ name ++ "%") = true ∧
        (plainName name → containsIgnoreCase t.Name name)) ∧
      (∀ t ∈ d.Translations,
        t ∈ db.store.translations ∧ t.CityID = d.row.ID ∧ t.Language = lang) := by
  obtain ⟨hn, hl, hd, _⟩ := GetName_success _ _ _ _ _ _ _ _ _ _ hm h
  refine ⟨hn, hl, ?_⟩
  intro d hdm
  rw [hd] at hdm
  obtain ⟨_, ⟨t, ht, h1, h2, h3⟩, h4⟩ := mem_searchQuery _ _ _ _ _ _ hdm
  refine ⟨⟨t, ht, h1, h2, h3, fun hp => (ILIKE_wrap _ _ hp).1 h3⟩, ?_⟩
  intro u hu
  rw [h4] at hu
  simp only [List.mem_filter, Bool.and_eq_true, decide_eq_true_eq] at hu
  exact ⟨hu.1, hu.2.1, hu.2.2⟩

theorem GetName_search_data_witness :
    ∃ t ∈ sampleDB.store.translations, t.CityID = 1 ∧ t.Language = "EN" ∧
      ILIKE t.Name ("%" ++ "berl" ++ "%") = true ∧
      (plainName "berl" → containsIgnoreCase t.Name "berl") :=
  ((GetName_search_data sampleDB "berl" "EN" "" (some "1") (some "1")
    [⟨⟨1, "a1", 5, none⟩, [⟨10, 1, "EN", "Berlin"⟩, ⟨14, 1, "EN", "Berlin Mitte"⟩]⟩]
    1 1 2 (by decide) (by decide)).2.2
    ⟨⟨1, "a1", 5, none⟩, [⟨10, 1, "EN", "Berlin"⟩, ⟨14, 1, "EN", "Berlin Mitte"⟩]⟩
    (by decide)).1

/-- C3 as stated fails: for `name = "_"` and `lang = "EN"` the search returns
the city 2, whose only translation in "EN" is "Springfield"; no translation of
that city in "EN" contains "_". -/
theorem GetName_search_wildcard :
    (GetName sampleDB "_" "EN" "" (some "1") none).1 =
      Response.citySearch [⟨⟨2, "b2", 7, none⟩, [⟨12, 2, "EN", "Springfield"⟩]⟩] 1 0 3 ∧
    ¬ ∃ t ∈ sampleDB.store.translations,
      t.CityID = 2 ∧ t.Language = "EN" ∧ containsIgnoreCase t.Name "_" := by
  decide

/-! ## Translate mode -/

/-- C5 (amended): with unique translation identifiers and a store that fails
neither lookup, `GetName` in translate mode returns the name of the translation
with the least identifier among those of language `lang` whose city is the city
of the translation with the least identifier among those whose name matches
the pattern "%" ++ name ++ "%" under `ILIKE`; it reports a failure when no
translation matches the pattern, and when the city of that first match has no
translation in `lang` (whatever the other matching cities have).  For a `name`
without the characters `%`, `_` and `\` a name matches the pattern exactly when
it contains `name` ignoring case. -/
theorem GetName_translate (db : DB) (name lang : String) (limit skip : Option String)
    (hpk : (db.store.translations.map fun t => t.ID).Nodup)
    (h1 : db.fails = false) (h2 : db.next.fails = false) :
    ((∀ t ∈ db.store.translations, ILIKE t.Name ("%" ++ name ++ "%") = false) →
      (GetName db name lang "translate" limit skip).1 =
        Response.error 500 "Failed to fetch city translation from the database") ∧
    (∀ ct ∈ db.store.translations, ILIKE ct.Name ("%" ++ name ++ "%") = true →
      (∀ t ∈ db.store.translations, ILIKE t.Name ("%" ++ name ++ "%") = true →
        ct.ID ≤ t.ID) →
      ((∀ t ∈ db.store.translations, ¬ (t.CityID = ct.CityID ∧ t.Language = lang)) →
        (GetName db name lang "translate" limit skip).1 =
          Response.error 500 "Failed to fetch translated city name from the database") ∧
      (∀ tr ∈ db.store.translations, tr.CityID = ct.CityID → tr.Language = lang →
        (∀ t ∈ db.store.translations, t.CityID = ct.CityID → t.Language = lang →
          tr.ID ≤ t.ID) →
        (GetName db name lang "translate" limit skip).1 = Response.translated tr.Name)) ∧
    (plainName name → ∀ text : String,
      ILIKE text ("%" ++ name ++ "%") = true ↔ containsIgnoreCase text name) := by
  rw [GetName_translate_eq]
  simp only [h1, h2, if_false, Bool.false_eq_true]
  refine ⟨?_, ?_, fun hp text => ILIKE_wrap text name hp⟩
  · intro hno
    have : (db.store.translations.filter fun t => ILIKE t.Name ("%" ++ name ++ "%")) = [] := by
      rw [List.filter_eq_nil_iff]
      intro t ht
      simp [hno t ht]
    rw [this]
    rfl
  · intro ct hct hmatch hleast
    have hfirst : firstBy (fun t => t.ID)
        (db.store.translations.filter fun t => ILIKE t.Name ("%" ++ name ++ "%")) = some ct := by
      apply firstBy_eq_some
      · exact hpk.sublist ((List.filter_sublist _).map _)
      · exact List.mem_filter.2 ⟨hct, hmatch⟩
      · intro b hb
        obtain ⟨hb1, hb2⟩ := List.mem_filter.1 hb
        exact hleast b hb1 hb2
    rw [hfirst]
    simp only
    constructor
    · intro hno
      have : (db.store.translations.filter fun t =>
          t.CityID = ct.CityID && t.Language = lang) = [] := by
        rw [List.filter_eq_nil_iff]
        intro t ht
        simp only [Bool.and_eq_true, decide_eq_true_eq]
        exact hno t ht
      rw [this]
      rfl
    · intro tr htr hcity hlang hleast'
      have hsecond : firstBy (fun t => t.ID) (db.store.translations.filter fun t =>
          t.CityID = ct.CityID && t.Language = lang) = some tr := by
        apply firstBy_eq_some
        · exact hpk.sublist ((List.filter_sublist _).map _)
        · exact List.mem_filter.2 ⟨htr, by simp [hcity, hlang]⟩
        · intro b hb
          obtain ⟨hb1, hb2⟩ := List.mem_filter.1 hb
          simp only [Bool.and_eq_true, decide_eq_true_eq] at hb2
          exact hleast' b hb1 hb2.1 hb2.2
      rw [hsecond]

theorem GetName_translate_witness :
    (GetName sampleDB "berl" "FR" "translate" none none).1 = Response.translated "Berlin" :=
  ((GetName_translate sampleDB "berl" "FR" none none (by decide) (by decide) (by decide)).2.1
    ⟨10, 1, "EN", "Berlin"⟩ (by decide) (by decide) (by decide)).2
    ⟨11, 1, "FR", "Berlin"⟩ (by decide) (by decide) (by decide) (by decide)

/-- C5 as stated fails: no translation of the sample store has a name that
contains "_", and `GetName` in translate mode with `name = "_"` and
`lang = "FR"` succeeds with the name "Berlin". -/
theorem GetName_translate_wildcard :
    (∀ t ∈ sampleDB.store.translations, ¬ containsIgnoreCase t.Name "_") ∧
    (GetName sampleDB "_" "FR" "translate" none none).1 = Response.translated "Berlin" := by
  decide

end Cities
